import Mathlib

/-!
Shallow embedding of the sidecar supervisor from
`src/desktop/src-tauri/src/sidecar.rs`.

The supervisor is a small state machine over a shared record
`SidecarState { child, status, restart_count, port }`.  We model each
operation that settles the state — `start_sidecar`, `stop_sidecar`, the
output monitor's `Terminated` and `Error` handlers, the grace-period
confirmation task, and one iteration of the periodic health-check loop —
as a pure transition on that record.  Filesystem and network outcomes
(port probe, resource lookups, spawn success, kill success, HTTP probe
result) are inputs to the transition, since the Rust code branches on
them.  Lock acquisitions (`lock`/`try_lock`) are modelled as always
succeeding: we reason about sequential "settled" semantics, sampling the
state after each operation completes, which is how the spec phrases its
invariants.

Besides the successor state, a step records the notifications emitted on
the Tauri event channel (`sidecar-status` values and the
`sidecar-restart-needed` trigger), the sleeps performed (in seconds),
whether a new OS process was spawned, and the `Result<(), String>` value
returned (`none` = `Ok(())`, `some msg` = `Err(msg)`).
-/

inductive SidecarStatus
  | Stopped
  | Starting
  | Running
  | Crashed
deriving DecidableEq, Repr

/-- The shared supervisor state of `SidecarState` in `sidecar.rs`.
The `CommandChild` handle is modelled as an opaque process identifier. -/
structure SidecarState where
  child : Option Nat
  status : SidecarStatus
  restart_count : Nat
  port : Nat
deriving DecidableEq, Repr

/-- `SidecarState::default()`: no child, `Stopped`, count 0, port 3838. -/
def initialState : SidecarState :=
  { child := none, status := .Stopped, restart_count := 0, port := 3838 }

/-- `MAX_RESTART_ATTEMPTS` in `sidecar.rs`. -/
def MAX_RESTART_ATTEMPTS : Nat := 3

/-- `STARTUP_GRACE_PERIOD` in seconds. -/
def STARTUP_GRACE_PERIOD : Nat := 5

/-- A notification published on the app's event channel. -/
inductive Emit
  | statusChanged (value : String)
  | restartNeeded
deriving DecidableEq, Repr

/-- Result of one settled operation: successor state, notifications in
emission order, sleeps performed (seconds), whether a fresh OS process
was spawned, and the returned `Result` (`none` = `Ok`). -/
structure StepOut where
  state : SidecarState
  emits : List Emit
  sleeps : List Nat
  spawned : Bool
  result : Option String
deriving DecidableEq, Repr

/-- Environment outcomes that `start_sidecar` branches on:
whether the TCP connect to the configured port succeeds within 500 ms,
whether `find_resources_dir` finds the bundled sidecar, whether the
bundled spawn succeeds, whether `find_engram_root` finds a root
directory, whether the later `script_path.exists()` re-check still
holds (the filesystem may have changed in between), whether the `node`
spawn succeeds, and the identifier of the freshly spawned process. -/
structure StartEnv where
  portInUse : Bool
  resourcesDirFound : Bool
  bundledSpawnOk : Bool
  engramRootFound : Bool
  scriptExistsAtSpawn : Bool
  nodeSpawnOk : Bool
  freshChild : Nat
deriving DecidableEq, Repr

/-- `start_sidecar` (sidecar.rs lines 129–297), up to and including the
synchronous part; the two background tasks it spawns are modelled as the
separate operations below.  Mirrors the source branch by branch:
idempotent return when `Running`/`Starting`; set `Starting`; port
adoption; bundled-sidecar spawn; otherwise `find_engram_root` (its error
propagates via `?` with no status change), the `script_path.exists()`
re-check (sets `Crashed` on failure), and the `node` spawn.  A spawn
error propagates via `map_err(..)?` with no status change. -/
def start_sidecar (env : StartEnv) (s : SidecarState) : StepOut :=
  if s.status = .Running ∨ s.status = .Starting then
    { state := s, emits := [], sleeps := [], spawned := false, result := none }
  else
    let s1 : SidecarState := { s with status := .Starting }
    if env.portInUse then
      { state := { s1 with status := .Running, restart_count := 0 },
        emits := [], sleeps := [], spawned := false, result := none }
    else if env.resourcesDirFound then
      if env.bundledSpawnOk then
        { state := { s1 with child := some env.freshChild },
          emits := [], sleeps := [], spawned := true, result := none }
      else
        { state := s1, emits := [], sleeps := [], spawned := false,
          result := some "Failed to spawn sidecar" }
    else if ¬ env.engramRootFound then
      { state := s1, emits := [], sleeps := [], spawned := false,
        result := some "Could not locate engram project root. Ensure bin/engram.js is accessible." }
    else if ¬ env.scriptExistsAtSpawn then
      { state := { s1 with status := .Crashed },
        emits := [], sleeps := [], spawned := false,
        result := some "Engram entry point not found" }
    else if env.nodeSpawnOk then
      { state := { s1 with child := some env.freshChild },
        emits := [], sleeps := [], spawned := true, result := none }
    else
      { state := s1, emits := [], sleeps := [], spawned := false,
        result := some "Failed to spawn engram process" }

/-- The output monitor's `CommandEvent::Terminated` handler
(sidecar.rs lines 235–264): set `Crashed`, clear the handle, emit
`"crashed"`; if `restart_count < MAX_RESTART_ATTEMPTS` increment it,
sleep `2^count` seconds and emit `sidecar-restart-needed`, otherwise
emit the terminal `"failed"` status. -/
def monitor_terminated (s : SidecarState) : StepOut :=
  let s1 : SidecarState := { s with status := .Crashed, child := none }
  if s1.restart_count < MAX_RESTART_ATTEMPTS then
    let attempt := s1.restart_count + 1
    { state := { s1 with restart_count := attempt },
      emits := [.statusChanged "crashed", .restartNeeded],
      sleeps := [2 ^ attempt], spawned := false, result := none }
  else
    { state := s1,
      emits := [.statusChanged "crashed", .statusChanged "failed"],
      sleeps := [], spawned := false, result := none }

/-- The output monitor's `CommandEvent::Error` handler
(sidecar.rs lines 266–272): set `Crashed`, clear the handle, emit
`sidecar-restart-needed` immediately.  It does not touch
`restart_count`, performs no sleep, and emits no status notification. -/
def monitor_error (s : SidecarState) : StepOut :=
  { state := { s with status := .Crashed, child := none },
    emits := [.restartNeeded], sleeps := [], spawned := false,
    result := none }

/-- The grace-period confirmation task (sidecar.rs lines 282–294):
sleep `STARTUP_GRACE_PERIOD`, run `health_check` once (its outcome is
the input `healthOk`), then set `Running` in either branch; reset
`restart_count` to 0 only on success.  Both branches emit
`"running"`. -/
def grace_confirm (healthOk : Bool) (s : SidecarState) : StepOut :=
  if healthOk then
    { state := { s with status := .Running, restart_count := 0 },
      emits := [.statusChanged "running"],
      sleeps := [STARTUP_GRACE_PERIOD], spawned := false, result := none }
  else
    { state := { s with status := .Running },
      emits := [.statusChanged "running"],
      sleeps := [STARTUP_GRACE_PERIOD], spawned := false, result := none }

/-- `stop_sidecar` (sidecar.rs lines 299–313): `take()` the handle; if
one existed, `kill()` it — on kill failure the error propagates via `?`
before the status/count writes, so only the `take()` has happened.  On
the success path set `Stopped`, reset the count, emit `"stopped"`. -/
def stop_sidecar (killOk : Bool) (s : SidecarState) : StepOut :=
  match s.child with
  | some _ =>
    if killOk then
      { state := { s with child := none, status := .Stopped, restart_count := 0 },
        emits := [.statusChanged "stopped"], sleeps := [], spawned := false,
        result := none }
    else
      { state := { s with child := none },
        emits := [], sleeps := [], spawned := false,
        result := some "Failed to kill sidecar" }
  | none =>
    { state := { s with status := .Stopped, restart_count := 0 },
      emits := [.statusChanged "stopped"], sleeps := [], spawned := false,
      result := none }

/-- One iteration of the periodic health-check loop body
(sidecar.rs lines 349–362): if status is `Running` and the probe fails,
set `Crashed`, clear the handle and emit `sidecar-restart-needed`;
otherwise no state change. -/
def health_loop_tick (probeOk : Bool) (s : SidecarState) : StepOut :=
  if s.status = .Running ∧ probeOk = false then
    { state := { s with status := .Crashed, child := none },
      emits := [.restartNeeded], sleeps := [], spawned := false,
      result := none }
  else
    { state := s, emits := [], sleeps := [], spawned := false, result := none }

/-- `reqwest::StatusCode::is_success`: the 2xx range. -/
def isSuccessCode (code : Nat) : Bool := 200 ≤ code && code < 300

/-- `health_check` (sidecar.rs lines 315–330).  `builderOk` is whether
the `reqwest::Client` builder succeeds; `response` is the outcome of the
GET to `http://localhost:<port>/api/status` — `some code` when a
response with that HTTP status code arrives, `none` on any transport
error or timeout.  Returns `resp.status().is_success()` on a response
and `false` on every failure; it is a total boolean function, never an
error. -/
def health_check (builderOk : Bool) (response : Option Nat) : Bool :=
  if builderOk then
    match response with
    | some code => isSuccessCode code
    | none => false
  else
    false

/-- One settled operation of the supervisor, with the environment
outcomes it branches on. -/
inductive Op
  | start (env : StartEnv)
  | stop (killOk : Bool)
  | terminated
  | errorEvent
  | grace (healthOk : Bool)
  | healthTick (probeOk : Bool)
deriving DecidableEq, Repr

/-- Dispatch one operation. -/
def step : Op → SidecarState → StepOut
  | .start env, s => start_sidecar env s
  | .stop killOk, s => stop_sidecar killOk s
  | .terminated, s => monitor_terminated s
  | .errorEvent, s => monitor_error s
  | .grace healthOk, s => grace_confirm healthOk s
  | .healthTick probeOk, s => health_loop_tick probeOk s

/-- The successor state of one operation. -/
def apply (op : Op) (s : SidecarState) : SidecarState := (step op s).state

/-- Run a sequence of operations from a state. -/
def run : List Op → SidecarState → SidecarState
  | [], s => s
  | op :: rest, s => run rest (apply op s)

/-- A state is reachable when some operation sequence produces it from
the default state. -/
def Reachable (s : SidecarState) : Prop :=
  ∃ ops : List Op, run ops initialState = s

/-- Concrete environment for a start that reaches the spawn path and
spawns successfully. -/
def spawnEnv : StartEnv :=
  { portInUse := false, resourcesDirFound := true, bundledSpawnOk := true,
    engramRootFound := true, scriptExistsAtSpawn := true, nodeSpawnOk := true,
    freshChild := 7 }

/-- Concrete environment in which the configured port already answers
the 500 ms TCP probe. -/
def adoptEnv : StartEnv :=
  { spawnEnv with portInUse := true }

/-- Concrete environment in which every locator candidate is exhausted:
no bundled resources directory and no engram root found. -/
def locateFailEnv : StartEnv :=
  { portInUse := false, resourcesDirFound := false, bundledSpawnOk := false,
    engramRootFound := false, scriptExistsAtSpawn := false, nodeSpawnOk := false,
    freshChild := 0 }

/-- The direction of the C1 invariant that the code does maintain: a
live handle is only held while status is `Starting` or `Running`. -/
def handleImpliesLive (s : SidecarState) : Prop :=
  s.child.isSome = true → (s.status = .Starting ∨ s.status = .Running)

/-- The bound the spec claims for the restart counter. -/
def rcBounded (s : SidecarState) : Prop :=
  s.restart_count ≤ MAX_RESTART_ATTEMPTS

/-- The operations that write 0 into `restart_count` in `sidecar.rs`:
the port-adoption branch of `start_sidecar`, the successful-probe branch
of the grace-period task, and `stop_sidecar` when it reaches its reset
statements (no handle, or the kill succeeded). -/
def resetsToZero : Op → SidecarState → Prop
  | .start env, _ => env.portInUse = true
  | .grace healthOk, _ => healthOk = true
  | .stop killOk, s => killOk = true ∨ s.child = none
  | _, _ => False

/-- A state whose restart budget is exhausted while the worker runs. -/
def exhaustedRunning : SidecarState :=
  { child := some 5, status := .Running, restart_count := 3, port := 3838 }

/-- A running worker with a partially spent restart budget. -/
def runningMidBudget : SidecarState :=
  { child := some 7, status := .Running, restart_count := 2, port := 3838 }

/-- A crashed supervisor whose restart budget is exhausted. -/
def crashedExhausted : SidecarState :=
  { child := none, status := .Crashed, restart_count := 3, port := 3838 }

theorem handleImpliesLive_step (op : Op) (s : SidecarState)
    (h : handleImpliesLive s) : handleImpliesLive (apply op s) := by
  cases op <;>
    simp only [handleImpliesLive, apply, step, start_sidecar, stop_sidecar,
      monitor_terminated, monitor_error, grace_confirm, health_loop_tick] at h ⊢ <;>
    repeat' split
  all_goals intro hc
  all_goals simp_all

theorem handleImpliesLive_run (ops : List Op) (s : SidecarState)
    (h : handleImpliesLive s) : handleImpliesLive (run ops s) := by
  induction ops generalizing s with
  | nil => exact h
  | cons op rest ih => exact ih (apply op s) (handleImpliesLive_step op s h)

theorem rcBounded_step (op : Op) (s : SidecarState)
    (h : rcBounded s) : rcBounded (apply op s) := by
  cases op <;>
    simp only [rcBounded, apply, step, start_sidecar, stop_sidecar,
      monitor_terminated, monitor_error, grace_confirm, health_loop_tick,
      MAX_RESTART_ATTEMPTS] at h ⊢ <;>
    repeat' split
  all_goals simp_all
  all_goals omega

theorem rcBounded_run (ops : List Op) (s : SidecarState)
    (h : rcBounded s) : rcBounded (run ops s) := by
  induction ops generalizing s with
  | nil => exact h
  | cons op rest ih => exact ih (apply op s) (rcBounded_step op s h)

/-- C1 (counterexample): the claimed two-way invariant fails after the
port-adoption branch of `start()` settles — starting from the default
state with the port already in use, start adopts the listener and sets
status `Running` while the process handle stays `None`. -/
theorem C1_counterexample :
    (run [.start adoptEnv] initialState).status = .Running ∧
    (run [.start adoptEnv] initialState).child = none ∧
    ¬((run [.start adoptEnv] initialState).child.isSome = true ↔
        ((run [.start adoptEnv] initialState).status = .Starting ∨
         (run [.start adoptEnv] initialState).status = .Running)) := by
  decide

/-- C1 (amended): after any sequence of settled operations from the
default state, a present process handle implies status `Starting` or
`Running`; the converse direction of the spec's iff is not maintained
(port adoption and failed locate/spawn attempts leave the status in
`Running`/`Starting` with no handle). -/
theorem C1_handle_implies_live (ops : List Op)
    (h : (run ops initialState).child.isSome = true) :
    (run ops initialState).status = .Starting ∨
    (run ops initialState).status = .Running :=
  handleImpliesLive_run ops initialState (by intro hc; simp [initialState] at hc) h

/-- Witness for C1: one successful spawn stores a handle while
status is `Starting`. -/
theorem C1_handle_implies_live_witness :
    (run [.start spawnEnv] initialState).child.isSome = true ∧
    ((run [.start spawnEnv] initialState).status = .Starting ∨
     (run [.start spawnEnv] initialState).status = .Running) :=
  ⟨by decide, C1_handle_implies_live [.start spawnEnv] (by decide)⟩

/-- C2: from the default state, `restart_count` stays within
`[0, MAX_RESTART_ATTEMPTS]` under every operation sequence; a crash
(`Terminated` event) with budget left increments it by exactly 1 and
publishes `sidecar-restart-needed`, and a crash with the budget
exhausted publishes the terminal `"failed"` status, publishes no
restart trigger, leaves the count unchanged and the status `Crashed`
with the handle cleared, spawning nothing. -/
theorem C2_restart_bound :
    (∀ ops : List Op, (run ops initialState).restart_count ≤ MAX_RESTART_ATTEMPTS) ∧
    (∀ s : SidecarState, s.restart_count < MAX_RESTART_ATTEMPTS →
      (step .terminated s).state.restart_count = s.restart_count + 1 ∧
      (step .terminated s).emits = [.statusChanged "crashed", .restartNeeded]) ∧
    (∀ s : SidecarState, s.restart_count = MAX_RESTART_ATTEMPTS →
      (step .terminated s).state.restart_count = s.restart_count ∧
      (step .terminated s).state.status = .Crashed ∧
      (step .terminated s).state.child = none ∧
      (step .terminated s).emits = [.statusChanged "crashed", .statusChanged "failed"] ∧
      Emit.restartNeeded ∉ (step .terminated s).emits ∧
      (step .terminated s).spawned = false) := by
  refine ⟨fun ops => rcBounded_run ops initialState (by simp [rcBounded, initialState]),
    ?_, ?_⟩
  · intro s h
    simp [step, monitor_terminated, h]
  · intro s h
    simp [step, monitor_terminated, h, MAX_RESTART_ATTEMPTS]

/-- Witness for C2 at concrete states: the empty sequence, a first
crash from the default state, and a crash with the budget spent. -/
theorem C2_restart_bound_witness :
    (run [] initialState).restart_count ≤ MAX_RESTART_ATTEMPTS ∧
    ((step .terminated initialState).state.restart_count = initialState.restart_count + 1 ∧
     (step .terminated initialState).emits = [.statusChanged "crashed", .restartNeeded]) ∧
    ((step .terminated crashedExhausted).state.restart_count = crashedExhausted.restart_count ∧
     (step .terminated crashedExhausted).state.status = .Crashed ∧
     (step .terminated crashedExhausted).state.child = none ∧
     (step .terminated crashedExhausted).emits = [.statusChanged "crashed", .statusChanged "failed"] ∧
     Emit.restartNeeded ∉ (step .terminated crashedExhausted).emits ∧
     (step .terminated crashedExhausted).spawned = false) :=
  ⟨C2_restart_bound.1 [], C2_restart_bound.2.1 initialState (by decide),
   C2_restart_bound.2.2 crashedExhausted (by decide)⟩

/-- C3 (counterexample): the `Error`-event handler does not apply the
bounded restart policy.  With the budget exhausted it still publishes
`sidecar-restart-needed` and never the terminal `"failed"` status, and
below the ceiling it does not increment `restart_count` (here it stays
0 where the claim requires an increment to 1). -/
theorem C3_counterexample :
    (step .errorEvent exhaustedRunning).emits = [.restartNeeded] ∧
    Emit.statusChanged "failed" ∉ (step .errorEvent exhaustedRunning).emits ∧
    (step .errorEvent exhaustedRunning).state.restart_count = 3 ∧
    (step .errorEvent initialState).state.restart_count = 0 := by
  decide

/-- C3 (amended): on an `Error` event the monitor sets status
`Crashed`, clears the handle and publishes `sidecar-restart-needed`
immediately with no backoff sleep; unlike the termination handler it
leaves `restart_count` untouched, applies no restart ceiling and emits
no status-changed notification. -/
theorem C3_error_event (s : SidecarState) :
    (step .errorEvent s).state.status = .Crashed ∧
    (step .errorEvent s).state.child = none ∧
    (step .errorEvent s).state.restart_count = s.restart_count ∧
    (step .errorEvent s).emits = [.restartNeeded] ∧
    (step .errorEvent s).sleeps = [] :=
  ⟨rfl, rfl, rfl, rfl, rfl⟩

/-- C4 (counterexample): when the kill fails, `stop()` does not clear
the whole supervisor state — the error propagates before the status and
counter writes, so from a running state with `restart_count = 2` the
status stays `Running` and the counter stays 2 (only the handle, taken
before the kill, is gone). -/
theorem C4_counterexample :
    (step (.stop false) runningMidBudget).result = some "Failed to kill sidecar" ∧
    (step (.stop false) runningMidBudget).state.child = none ∧
    (step (.stop false) runningMidBudget).state.status = .Running ∧
    (step (.stop false) runningMidBudget).state.restart_count = 2 := by
  decide

/-- C4 (amended): `stop()` always removes the process handle (the
`take()` precedes the kill).  When no handle existed or the kill
succeeds it sets status `Stopped`, resets `restart_count` to 0, emits
`"stopped"` and returns success; when the kill fails it returns the
descriptive error with status and `restart_count` unchanged. -/
theorem C4_stop (killOk : Bool) (s : SidecarState) :
    (step (.stop killOk) s).state.child = none ∧
    ((s.child = none ∨ killOk = true) →
      (step (.stop killOk) s).state.status = .Stopped ∧
      (step (.stop killOk) s).state.restart_count = 0 ∧
      (step (.stop killOk) s).result = none ∧
      (step (.stop killOk) s).emits = [.statusChanged "stopped"]) ∧
    (s.child.isSome = true → killOk = false →
      (step (.stop killOk) s).state.status = s.status ∧
      (step (.stop killOk) s).state.restart_count = s.restart_count ∧
      (step (.stop killOk) s).result = some "Failed to kill sidecar") := by
  cases hc : s.child <;> cases killOk <;>
    simp [step, stop_sidecar, hc]

/-- Witness for C4: a running worker with a handle, under a successful
kill and under a failing kill. -/
theorem C4_stop_witness :
    (step (.stop true) runningMidBudget).state.child = none ∧
    ((step (.stop true) runningMidBudget).state.status = .Stopped ∧
     (step (.stop true) runningMidBudget).state.restart_count = 0 ∧
     (step (.stop true) runningMidBudget).result = none ∧
     (step (.stop true) runningMidBudget).emits = [.statusChanged "stopped"]) ∧
    ((step (.stop false) runningMidBudget).state.status = runningMidBudget.status ∧
     (step (.stop false) runningMidBudget).state.restart_count = runningMidBudget.restart_count ∧
     (step (.stop false) runningMidBudget).result = some "Failed to kill sidecar") :=
  ⟨(C4_stop true runningMidBudget).1,
   (C4_stop true runningMidBudget).2.1 (Or.inr rfl),
   (C4_stop false runningMidBudget).2.2 (by decide) rfl⟩

/-- C5 (counterexample): when every locator candidate is exhausted
(no bundled resources directory, no engram root), `start()` returns the
locator's error string but the status stays `Starting` — the `?` on
`find_engram_root` propagates before any `Crashed` write. -/
theorem C5_counterexample :
    (step (.start locateFailEnv) initialState).result =
      some "Could not locate engram project root. Ensure bin/engram.js is accessible." ∧
    (step (.start locateFailEnv) initialState).state.status = .Starting ∧
    (step (.start locateFailEnv) initialState).state.status ≠ .Crashed := by
  decide

/-- C5 (amended): on locator exhaustion `start()` fails fast with an
error string and spawns nothing, but leaves status `Starting`; the
`Crashed` transition only happens in the branch where a root was found
and the entry script's existence re-check then fails. -/
theorem C5_locator_failure (env : StartEnv) (s : SidecarState)
    (hs : ¬(s.status = .Running ∨ s.status = .Starting))
    (hp : env.portInUse = false) (hr : env.resourcesDirFound = false)
    (he : env.engramRootFound = false) :
    (step (.start env) s).result =
      some "Could not locate engram project root. Ensure bin/engram.js is accessible." ∧
    (step (.start env) s).state.status = .Starting ∧
    (step (.start env) s).spawned = false := by
  simp [step, start_sidecar, hs, hp, hr, he]

/-- Witness for C5: the default state with every candidate missing. -/
theorem C5_locator_failure_witness :
    (step (.start locateFailEnv) initialState).result =
      some "Could not locate engram project root. Ensure bin/engram.js is accessible." ∧
    (step (.start locateFailEnv) initialState).state.status = .Starting ∧
    (step (.start locateFailEnv) initialState).spawned = false :=
  C5_locator_failure locateFailEnv initialState (by decide) rfl rfl rfl

/-- C6: while the budget is not exhausted, the backoff slept by the
termination handler is `2 ^ (restart_count + 1)` seconds — the power is
taken after the increment — giving exactly 2 s, 4 s and 8 s for
restart attempts 1, 2 and 3. -/
theorem C6_backoff (s : SidecarState)
    (h : s.restart_count < MAX_RESTART_ATTEMPTS) :
    (step .terminated s).sleeps = [2 ^ (s.restart_count + 1)] ∧
    (s.restart_count = 0 → (step .terminated s).sleeps = [2]) ∧
    (s.restart_count = 1 → (step .terminated s).sleeps = [4]) ∧
    (s.restart_count = 2 → (step .terminated s).sleeps = [8]) := by
  refine ⟨by simp [step, monitor_terminated, h], ?_, ?_, ?_⟩ <;>
    intro h0 <;> simp [step, monitor_terminated, h0, MAX_RESTART_ATTEMPTS]

/-- Witness for C6: the first crash from the default state sleeps
`2^1 = 2` seconds. -/
theorem C6_backoff_witness :
    (step .terminated initialState).sleeps = [2 ^ (initialState.restart_count + 1)] ∧
    (step .terminated initialState).sleeps = [2] :=
  ⟨(C6_backoff initialState (by decide)).1,
   (C6_backoff initialState (by decide)).2.1 rfl⟩

/-- C7: a `start()` call that gets past the idempotency check and finds
the configured port already answering adopts the existing listener: it
sets status `Running`, resets `restart_count` to 0, spawns no process
and returns success. -/
theorem C7_port_adoption (env : StartEnv) (s : SidecarState)
    (hs : ¬(s.status = .Running ∨ s.status = .Starting))
    (hp : env.portInUse = true) :
    (step (.start env) s).state.status = .Running ∧
    (step (.start env) s).state.restart_count = 0 ∧
    (step (.start env) s).spawned = false ∧
    (step (.start env) s).result = none := by
  simp [step, start_sidecar, hs, hp]

/-- Witness for C7: adoption from the default state. -/
theorem C7_port_adoption_witness :
    (step (.start adoptEnv) initialState).state.status = .Running ∧
    (step (.start adoptEnv) initialState).state.restart_count = 0 ∧
    (step (.start adoptEnv) initialState).spawned = false ∧
    (step (.start adoptEnv) initialState).result = none :=
  C7_port_adoption adoptEnv initialState (by decide) rfl

/-- C8: after the 5-second grace period the confirmation task sets
status `Running` regardless of the probe outcome — a failed probe does
not yield `Crashed` — and resets `restart_count` to 0 exactly when the
probe succeeds. -/
theorem C8_grace_confirm (healthOk : Bool) (s : SidecarState) :
    (step (.grace healthOk) s).state.status = .Running ∧
    (step (.grace healthOk) s).state.status ≠ .Crashed ∧
    (step (.grace healthOk) s).state.restart_count =
      (if healthOk = true then 0 else s.restart_count) ∧
    (step (.grace healthOk) s).sleeps = [STARTUP_GRACE_PERIOD] := by
  cases healthOk <;> simp [step, grace_confirm]

/-- C9: the health probe returns `true` exactly when the client was
built and the GET produced a response with a 2xx status code; every
transport error or timeout (`response = none`) and every non-success
code yields `false`.  The probe is a total boolean function — it never
returns an error to its caller. -/
theorem C9_health_check (builderOk : Bool) (response : Option Nat) :
    health_check builderOk response = true ↔
      builderOk = true ∧ ∃ code, response = some code ∧ isSuccessCode code = true := by
  cases builderOk <;> cases response <;> simp [health_check]

/-- C10: the spawn path of `start()` (port not in use) never changes
`restart_count`; an operation can only zero a non-zero count through
port adoption, a successful grace-period probe, or `stop()` reaching
its reset writes.  Consequently, with the budget exhausted, a manual
start whose grace-period probe fails leaves the count at 3 and status
`Running`, and the very next crash publishes the terminal `"failed"`
status with no restart trigger. -/
theorem C10_spawn_never_resets :
    (∀ (env : StartEnv) (s : SidecarState), env.portInUse = false →
      (step (.start env) s).state.restart_count = s.restart_count) ∧
    (∀ (op : Op) (s : SidecarState),
      (apply op s).restart_count = 0 → s.restart_count = 0 ∨ resetsToZero op s) ∧
    ((run [.start spawnEnv, .grace false] crashedExhausted).restart_count = 3 ∧
     (run [.start spawnEnv, .grace false] crashedExhausted).status = .Running ∧
     (step .terminated (run [.start spawnEnv, .grace false] crashedExhausted)).emits =
       [.statusChanged "crashed", .statusChanged "failed"] ∧
     Emit.restartNeeded ∉
       (step .terminated (run [.start spawnEnv, .grace false] crashedExhausted)).emits) := by
  refine ⟨?_, ?_, by decide⟩
  · intro env s hp
    simp only [step, start_sidecar, hp]
    repeat' split
    all_goals first
      | rfl
      | simp_all
  · intro op s h
    cases op <;>
      simp only [resetsToZero, apply, step, start_sidecar, stop_sidecar,
        monitor_terminated, monitor_error, grace_confirm,
        health_loop_tick] at h ⊢ <;>
      repeat' split at h
    all_goals simp_all

/-- Witness for C10: a successful spawn from the default state keeps
the count, and a successful stop is among the operations allowed to
zero it. -/
theorem C10_spawn_never_resets_witness :
    (step (.start spawnEnv) initialState).state.restart_count =
      initialState.restart_count ∧
    (runningMidBudget.restart_count = 0 ∨ resetsToZero (.stop true) runningMidBudget) :=
  ⟨C10_spawn_never_resets.1 spawnEnv initialState rfl,
   C10_spawn_never_resets.2.1 (.stop true) runningMidBudget (by decide)⟩
